import Mathlib

/-!
Verification of the Mafia Telegram-bot game engine (src/main.py).

The source is a single Python file holding a registry of game sessions
(one per chat), role assignment, a night phase with private role actions,
a day phase with votes and elimination, and win-condition evaluation.
This file embeds the state machine shallowly: Python dicts become
insertion-ordered association lists, sets become `Finset`, the handlers
become pure functions on an explicit `GameState`, and every reply/raise
path becomes an `Except` error or an explicit flag.

Python truthiness matters in three places of the source and is embedded
literally: `if mafia_target` (end_night_phase), `if not target_id` (vote)
and `if not target_chat` (button_handler) treat the integer 0 like
absence.  Telegram user and chat identifiers are nonzero, and theorems
that need this say so as a hypothesis.
-/

deriving instance DecidableEq for Except

namespace Mafia

/-- Player identifiers are Telegram user ids (nonzero in practice). -/
abbrev PlayerId := Nat

/-- Chat identifiers are Telegram chat ids (negative for groups, nonzero). -/
abbrev ChatId := Int

/-- The four roles dealt by `assign_roles`: Mafia is the Killer, Doktor the
Protector, Komissar the Investigator, Fuqaro the Civilian. -/
inductive Role
  | Mafia
  | Doktor
  | Komissar
  | Fuqaro
deriving DecidableEq

/-- The two phases stored in `game["phase"]`. -/
inductive Phase
  | day
  | night
deriving DecidableEq

/-- A Python dict, embedded as an insertion-ordered association list with
unique keys.  `dictGet? k l` is `l[k]` as an `Option` (the first binding
of `k`, and dicts never hold two bindings of one key). -/
def dictGet? {α β : Type} [DecidableEq α] (k : α) (l : List (α × β)) : Option β :=
  (l.find? (fun kv => decide (kv.1 = k))).map (fun kv => kv.2)

/-- Python dict assignment `d[k] = v`: overwrite in place when the key is
present, otherwise append at the end (insertion order is preserved). -/
def dictInsert {α β : Type} [DecidableEq α] (k : α) (v : β) : List (α × β) → List (α × β)
  | [] => [(k, v)]
  | kv :: rest => if kv.1 = k then (k, v) :: rest else kv :: dictInsert k v rest

/-- The `night_actions` dict: at most one target per role slot (string keys
"mafia", "doctor", "sheriff" in the source). -/
structure NightActions where
  mafia : Option PlayerId
  doctor : Option PlayerId
  sheriff : Option PlayerId
deriving DecidableEq

/-- One game session: the per-chat dict created by /newgame. -/
structure GameState where
  players : List (PlayerId × String)
  roles : List (PlayerId × Role)
  alive : Finset PlayerId
  started : Bool
  phase : Phase
  votes : List (PlayerId × PlayerId)
  night_actions : NightActions
deriving DecidableEq

/-- Outcome of `check_game_end`: a winning faction (the session is then
deleted from the registry) or `continues` (the Python function returns
False). -/
inductive GameEndResult
  | goodWins
  | evilWins
  | continues
deriving DecidableEq

/-- `check_game_end` (src/main.py lines 49-67).  `if not alive: return False`
is the first guard; then the living players are split into Mafia and
non-Mafia and compared.  Python raises KeyError when a living player is
missing from `roles`; under the session invariant `alive ⊆ roles` keys that
never happens and there the embedding agrees with the code. -/
def check_game_end (roles : List (PlayerId × Role)) (alive : Finset PlayerId) :
    GameEndResult :=
  if alive = ∅ then GameEndResult.continues
  else
    let mafia := alive.filter (fun p => dictGet? p roles = some Role.Mafia)
    let fuqaro := alive.filter (fun p => dictGet? p roles ≠ some Role.Mafia)
    if mafia.card = 0 then GameEndResult.goodWins
    else if fuqaro.card ≤ mafia.card then GameEndResult.evilWins
    else GameEndResult.continues

/-- The errors the handlers reply with. -/
inductive GameError
  | insufficientPlayers
deriving DecidableEq

/-- The role deck built by `assign_roles` before `shuffle(roles)`. -/
def base_roles (n : Nat) : List Role :=
  [Role.Mafia] ++ [Role.Doktor, Role.Komissar] ++ List.replicate (n - 3) Role.Fuqaro

/-- `assign_roles` (src/main.py lines 37-46).  `random.shuffle` is modelled
by passing the shuffled deck explicitly; theorems quantify over every
permutation of `base_roles`.  The result is `dict(zip(player_ids, roles))`. -/
def assign_roles (player_ids : List PlayerId) (shuffled : List Role) :
    Except GameError (List (PlayerId × Role)) :=
  if player_ids.length < 3 then Except.error GameError.insufficientPlayers
  else Except.ok (player_ids.zip shuffled)

/-- What `end_night_phase` announces: the victim (if any) and the
Komissar's investigation result (target and its current role). -/
structure NightResult where
  victim : Option PlayerId
  investigation : Option (PlayerId × Role)
deriving DecidableEq

/-- The victim computation of `end_night_phase`:
`if mafia_target and mafia_target != doctor_protect: victim = mafia_target`.
`mafia_target` is falsy when the key is absent or the id is 0. -/
def night_victim (na : NightActions) : Option PlayerId :=
  match na.mafia with
  | none => none
  | some m => if m ≠ 0 ∧ na.doctor ≠ some m then some m else none

/-- The investigation of `end_night_phase`: `if sheriff_check:` (truthy,
so present and nonzero) the target's current role is looked up in `roles`. -/
def night_investigation (na : NightActions) (roles : List (PlayerId × Role)) :
    Option (PlayerId × Role) :=
  match na.sheriff with
  | none => none
  | some s => if s ≠ 0 then (dictGet? s roles).map (fun r => (s, r)) else none

/-- `game["alive"].discard(victim)` when there is a victim. -/
def apply_victim (alive : Finset PlayerId) : Option PlayerId → Finset PlayerId
  | some v => alive.erase v
  | none => alive

/-- `end_night_phase` (src/main.py lines 70-106): compute the victim,
discard it from `alive`, compute the investigation, then run
`check_game_end`; when nobody won, the phase becomes day and the votes are
cleared.  The first component is `none` when `check_game_end` deleted the
session from the registry. -/
def end_night_phase (g : GameState) : Option GameState × NightResult :=
  let victim := night_victim g.night_actions
  let alive' := apply_victim g.alive victim
  let res : NightResult := ⟨victim, night_investigation g.night_actions g.roles⟩
  match check_game_end g.roles alive' with
  | GameEndResult.continues =>
      (some { g with alive := alive', phase := Phase.day, votes := [] }, res)
  | _ => (none, res)

/-- The fresh session dict built by the /newgame handler
(src/main.py lines 111-122). -/
def freshGame : GameState :=
  { players := []
    roles := []
    alive := ∅
    started := false
    phase := Phase.day
    votes := []
    night_actions := ⟨none, none, none⟩ }

/-- /newgame handler: `games[chat_id] = {...}`, unconditionally, whatever
the chat held before. -/
def newgame (games : List (ChatId × GameState)) (chat_id : ChatId) :
    List (ChatId × GameState) :=
  dictInsert chat_id freshGame games

/-- Session-level core of the /begin handler (src/main.py lines 161-192):
guard on the player count, then `roles = assign_roles(players)`,
`alive = set(players)`, `started = True`, `phase = "night"`. -/
def begin_game (g : GameState) (shuffled : List Role) : Except GameError GameState :=
  let player_ids := g.players.map Prod.fst
  if player_ids.length < 3 then Except.error GameError.insufficientPlayers
  else
    match assign_roles player_ids shuffled with
    | Except.error e => Except.error e
    | Except.ok rs =>
        Except.ok { g with roles := rs
                           alive := player_ids.toFinset
                           started := true
                           phase := Phase.night }

/-- The /begin handler at registry level: a missing game or an error reply
leaves the `games` dict untouched (the handler returns before any write). -/
def begin_cmd (games : List (ChatId × GameState)) (chat_id : ChatId)
    (shuffled : List Role) : List (ChatId × GameState) :=
  match dictGet? chat_id games with
  | none => games
  | some g =>
    match begin_game g shuffled with
    | Except.error _ => games
    | Except.ok g' => dictInsert chat_id g' games

/-- Python `str.lower()` on the ASCII range (display names), written over
the character list so that it reduces in the kernel. -/
def py_lower (s : String) : String := ⟨s.data.map Char.toLower⟩

/-- Python `str.strip()`: drop leading and trailing whitespace. -/
def py_strip (s : String) : String :=
  ⟨((s.data.dropWhile Char.isWhitespace).reverse.dropWhile Char.isWhitespace).reverse⟩

/-- Python `" ".join(args)`. -/
def py_join (args : List String) : String :=
  ⟨((args.map String.data).intersperse [' ']).flatten⟩

/-- Error replies of the /vote handler. -/
inductive VoteError
  | wrongPhase
  | notAlive
  | usage
  | noSuchPlayer
deriving DecidableEq

/-- Name resolution in /vote (src/main.py lines 312-321): the first player
in insertion order whose display name matches case-insensitively and who is
alive.  `if not target_id:` then rejects both no match and the id 0
(Python truthiness). -/
def resolve_target (players : List (PlayerId × String)) (alive : Finset PlayerId)
    (target_name : String) : Option PlayerId :=
  match players.find? (fun pn =>
      decide (py_lower pn.2 = py_lower target_name ∧ pn.1 ∈ alive)) with
  | some pn => if pn.1 = 0 then none else some pn.1
  | none => none

/-- Vote counting at quorum (src/main.py lines 330-335): tally the targets,
take the maximum, keep every target at the maximum. -/
def tally_candidates (targets : List PlayerId) : List PlayerId :=
  let counts := targets.dedup.map (fun t => (t, targets.count t))
  let max_votes := (counts.map Prod.snd).foldr max 0
  (counts.filter (fun tc => decide (tc.2 = max_votes))).map Prod.fst

/-- What became of an accepted /vote call.  `aborted` records the TypeError
raised in the unique-candidate branch: the source calls
`update.message.reply_chat_action(chat_id=chat_id)`, but
`Message.reply_chat_action` takes a required positional `action` argument
and accepts no `chat_id`, so the call raises before `check_game_end` and
the phase change can run. -/
structure VoteOutcome where
  tallied : Bool
  eliminated : Option PlayerId
  tie : Bool
  aborted : Bool
deriving DecidableEq

/-- The /vote handler (src/main.py lines 291-349), session level.  Returns
the updated session (`none` when `check_game_end` deleted it) and what
happened.  In the unique-candidate branch the candidate is discarded from
`alive` and then the handler dies with the TypeError described at
`VoteOutcome`, so there `check_game_end` never runs, the phase stays day
and the votes are kept. -/
def vote (g : GameState) (user_id : PlayerId) (args : List String) :
    Except VoteError (Option GameState × VoteOutcome) :=
  if g.phase ≠ Phase.day then Except.error VoteError.wrongPhase
  else if user_id ∉ g.alive then Except.error VoteError.notAlive
  else if args = [] then Except.error VoteError.usage
  else
    let target_name := py_strip (py_join args)
    match resolve_target g.players g.alive target_name with
    | none => Except.error VoteError.noSuchPlayer
    | some target_id =>
      let votes' := dictInsert user_id target_id g.votes
      if votes'.length = g.alive.card then
        match tally_candidates (votes'.map Prod.snd) with
        | [c] =>
            Except.ok (some { g with votes := votes', alive := g.alive.erase c },
                       ⟨true, some c, false, true⟩)
        | _ =>
            match check_game_end g.roles g.alive with
            | GameEndResult.continues =>
                Except.ok (some { g with votes := votes', phase := Phase.night },
                           ⟨true, none, true, false⟩)
            | _ => Except.ok (none, ⟨true, none, true, false⟩)
      else Except.ok (some { g with votes := votes' }, ⟨false, none, false, false⟩)

/-- A callback payload already split on its underscore: the strings
"mafia_<id>", "doctor_<id>", "sheriff_<id>", or anything else. -/
inductive CallbackData
  | mafia (target : PlayerId)
  | doctor (target : PlayerId)
  | sheriff (target : PlayerId)
  | other
deriving DecidableEq

/-- The store performed by `button_handler` once a session was found:
`game["night_actions"][slot] = target`, with no validation whatsoever. -/
def applyAction (g : GameState) : CallbackData → GameState
  | CallbackData.mafia t =>
      { g with night_actions := { g.night_actions with mafia := some t } }
  | CallbackData.doctor t =>
      { g with night_actions := { g.night_actions with doctor := some t } }
  | CallbackData.sheriff t =>
      { g with night_actions := { g.night_actions with sheriff := some t } }
  | CallbackData.other => g

/-- The cross-session scan of `button_handler` (src/main.py lines 366-370):
the first game in which the presser is a registered living player. -/
def findTargetChat (games : List (ChatId × GameState)) (user_id : PlayerId) :
    Option ChatId :=
  (games.find? (fun cg =>
      decide ((dictGet? user_id cg.2.players).isSome ∧ user_id ∈ cg.2.alive))).map
    Prod.fst

/-- Reply of `button_handler`. -/
inductive BhResult
  | notInAnyGame
  | acted (chat : ChatId)
deriving DecidableEq

/-- `button_handler` (src/main.py lines 354-394): scan for the session,
Python-check `if not target_chat` (no session, or the chat id 0 is falsy),
then store the target under the slot named by the payload.  There is no
phase check, no liveness check of the target and no self-target check. -/
def button_handler (games : List (ChatId × GameState)) (user_id : PlayerId)
    (data : CallbackData) : List (ChatId × GameState) × BhResult :=
  match findTargetChat games user_id with
  | none => (games, BhResult.notInAnyGame)
  | some cid =>
    if cid = 0 then (games, BhResult.notInAnyGame)
    else
      ((games.map (fun cg => if cg.1 = cid then (cg.1, applyAction cg.2 data) else cg)),
       BhResult.acted cid)

/-! ### Dictionary lemmas -/

/-- Looking up the key just assigned yields the assigned value. -/
theorem dictGet?_dictInsert_self {α β : Type} [DecidableEq α] (k : α) (v : β)
    (l : List (α × β)) : dictGet? k (dictInsert k v l) = some v := by
  induction l with
  | nil => simp [dictGet?, dictInsert]
  | cons kv rest ih =>
    by_cases h : kv.1 = k
    · simp [dictGet?, dictInsert, h]
    · simpa [dictGet?, dictInsert, h] using ih

/-- Assignment keeps the key sequence when the key is present and appends
the key otherwise. -/
theorem keys_dictInsert {α β : Type} [DecidableEq α] (k : α) (v : β)
    (l : List (α × β)) :
    (dictInsert k v l).map Prod.fst =
      if k ∈ l.map Prod.fst then l.map Prod.fst else l.map Prod.fst ++ [k] := by
  induction l with
  | nil => simp [dictInsert]
  | cons kv rest ih =>
    by_cases h : kv.1 = k
    · simp [dictInsert, h]
    · have hne : ¬k = kv.1 := fun hk => h hk.symm
      by_cases hm : k ∈ rest.map Prod.fst
      · simp [dictInsert, h, ih, hm, hne]
      · simp [dictInsert, h, ih, hm, hne]

/-- Assignment of a present key does not change the dict's size. -/
theorem length_dictInsert_of_mem {α β : Type} [DecidableEq α] {k : α} (v : β)
    {l : List (α × β)} (h : k ∈ l.map Prod.fst) :
    (dictInsert k v l).length = l.length := by
  have hk := keys_dictInsert k v l
  rw [if_pos h] at hk
  have := congrArg List.length hk
  simpa using this

/-- The assigned key is a key of the result. -/
theorem mem_keys_dictInsert {α β : Type} [DecidableEq α] (k : α) (v : β)
    (l : List (α × β)) : k ∈ (dictInsert k v l).map Prod.fst := by
  rw [keys_dictInsert]
  by_cases hm : k ∈ l.map Prod.fst <;> simp [hm]

/-- Assignment preserves key uniqueness. -/
theorem keys_dictInsert_nodup {α β : Type} [DecidableEq α] (k : α) (v : β)
    {l : List (α × β)} (h : (l.map Prod.fst).Nodup) :
    ((dictInsert k v l).map Prod.fst).Nodup := by
  rw [keys_dictInsert]
  by_cases hm : k ∈ l.map Prod.fst
  · simpa [hm] using h
  · simp [hm, List.nodup_append, h]

/-- In a dict with unique keys, the assigned key occurs exactly once. -/
theorem count_keys_dictInsert {α β : Type} [DecidableEq α] (k : α) (v : β)
    {l : List (α × β)} (h : (l.map Prod.fst).Nodup) :
    ((dictInsert k v l).map Prod.fst).count k = 1 := by
  exact List.count_eq_one_of_mem (keys_dictInsert_nodup k v h) (mem_keys_dictInsert k v l)

/-- `List.find?` returns the first element satisfying the predicate: the
list splits at the result and everything before it fails the predicate. -/
theorem find?_eq_some_split {α : Type} (p : α → Bool) (l : List α) (a : α)
    (h : l.find? p = some a) :
    ∃ l₁ l₂, l = l₁ ++ a :: l₂ ∧ p a = true ∧ ∀ x ∈ l₁, p x = false := by
  induction l with
  | nil => simp [List.find?] at h
  | cons b t ih =>
    by_cases hb : p b
    · rw [List.find?_cons_of_pos _ hb] at h
      obtain rfl : b = a := by injection h
      exact ⟨[], t, rfl, hb, by simp⟩
    · rw [List.find?_cons_of_neg _ (by simpa using hb)] at h
      obtain ⟨l₁, l₂, rfl, hpa, hneg⟩ := ih h
      refine ⟨b :: l₁, l₂, rfl, hpa, ?_⟩
      intro x hx
      rcases List.mem_cons.mp hx with rfl | hx'
      · simpa using hb
      · exact hneg x hx'

/-! ### C10: /newgame unconditionally resets the chat's session -/

/-- C10: newgame on a group that already has a game, started or not,
replaces it with a fresh empty lobby: no players, no roles, empty alive
set, started false, phase Day, empty votes and night actions. -/
theorem C10_newgame_reset (games : List (ChatId × GameState)) (chat_id : ChatId) :
    dictGet? chat_id (newgame games chat_id) = some freshGame ∧
    freshGame.players = [] ∧ freshGame.roles = [] ∧
    freshGame.alive = ∅ ∧ freshGame.started = false ∧
    freshGame.phase = Phase.day ∧ freshGame.votes = [] ∧
    freshGame.night_actions = ⟨none, none, none⟩ :=
  ⟨dictGet?_dictInsert_self _ _ _, rfl, rfl, rfl, rfl, rfl, rfl, rfl⟩

/-! ### C1: check_game_end -/

/-- C1 (counterexample): with an empty alive set no living Mafia remains,
yet check_game_end answers `continues` (the `if not alive` guard), not the
good-wins the claim requires for every alive set. -/
theorem C1_counterexample :
    check_game_end [(1, Role.Mafia)] (∅ : Finset PlayerId) = GameEndResult.continues ∧
    (∀ p ∈ (∅ : Finset PlayerId), dictGet? p [(1, Role.Mafia)] ≠ some Role.Mafia) ∧
    GameEndResult.continues ≠ GameEndResult.goodWins := by
  decide

/-- C1 (amended): for every role mapping and NONEMPTY alive set the claimed
trichotomy holds: no living Mafia gives good-wins, otherwise evil wins
exactly when the living Mafia are not outnumbered by the living non-Mafia,
and the game continues exactly when they are outnumbered.  With an empty
alive set the code reports no winner. -/
theorem C1_win_eval_amended (roles : List (PlayerId × Role)) (alive : Finset PlayerId)
    (hne : alive ≠ ∅) :
    ((∀ p ∈ alive, dictGet? p roles ≠ some Role.Mafia) →
        check_game_end roles alive = GameEndResult.goodWins) ∧
    ((∃ p ∈ alive, dictGet? p roles = some Role.Mafia) →
      ((alive.filter (fun p => dictGet? p roles ≠ some Role.Mafia)).card ≤
          (alive.filter (fun p => dictGet? p roles = some Role.Mafia)).card ↔
        check_game_end roles alive = GameEndResult.evilWins)) ∧
    ((∃ p ∈ alive, dictGet? p roles = some Role.Mafia) →
      ((alive.filter (fun p => dictGet? p roles = some Role.Mafia)).card <
          (alive.filter (fun p => dictGet? p roles ≠ some Role.Mafia)).card ↔
        check_game_end roles alive = GameEndResult.continues)) := by
  unfold check_game_end
  rw [if_neg hne]
  refine ⟨?_, ?_, ?_⟩
  · intro h
    have hE : (alive.filter (fun p => dictGet? p roles = some Role.Mafia)).card = 0 := by
      rw [Finset.card_eq_zero]
      exact Finset.filter_eq_empty_iff.mpr (fun x hx => h x hx)
    simp [hE]
  · intro hex
    have hE : (alive.filter (fun p => dictGet? p roles = some Role.Mafia)).card ≠ 0 := by
      have hpos := Finset.card_pos.mpr (Finset.filter_nonempty_iff.mpr hex)
      omega
    constructor
    · intro hle
      simp [hE, hle]
    · intro hres
      by_contra hlt
      simp [hE, hlt] at hres
  · intro hex
    have hE : (alive.filter (fun p => dictGet? p roles = some Role.Mafia)).card ≠ 0 := by
      have hpos := Finset.card_pos.mpr (Finset.filter_nonempty_iff.mpr hex)
      omega
    constructor
    · intro hlt
      have hle : ¬(alive.filter (fun p => dictGet? p roles ≠ some Role.Mafia)).card ≤
          (alive.filter (fun p => dictGet? p roles = some Role.Mafia)).card := by omega
      simp [hE, hle]
    · intro hres
      by_contra hnlt
      have hle : (alive.filter (fun p => dictGet? p roles ≠ some Role.Mafia)).card ≤
          (alive.filter (fun p => dictGet? p roles = some Role.Mafia)).card := by omega
      simp [hE, hle] at hres

/-- C1 witness: a concrete live game where the Mafia is outnumbered, so the
amended evaluation answers `continues`. -/
theorem C1_witness :
    check_game_end [(1, Role.Mafia), (2, Role.Fuqaro), (3, Role.Doktor)]
      ({1, 2, 3} : Finset PlayerId) = GameEndResult.continues := by
  have h := C1_win_eval_amended
    [(1, Role.Mafia), (2, Role.Fuqaro), (3, Role.Doktor)]
    ({1, 2, 3} : Finset PlayerId) (by decide)
  exact (h.2.2 (by decide)).mp (by decide)

/-! ### C3: assign_roles composition -/

/-- C3 (counterexample): with exactly three players the deck holds no
Fuqaro at all, while the claim requires n-2..n-1 (that is, 1 or 2)
Civilians. -/
theorem C3_counterexample :
    assign_roles [1, 2, 3] (base_roles 3) =
      Except.ok [(1, Role.Mafia), (2, Role.Doktor), (3, Role.Komissar)] ∧
    (([(1, Role.Mafia), (2, Role.Doktor), (3, Role.Komissar)].map Prod.snd).count
        Role.Fuqaro = 0) ∧
    ¬(3 - 2 ≤ ([(1, Role.Mafia), (2, Role.Doktor), (3, Role.Komissar)].map
        Prod.snd).count Role.Fuqaro) := by
  decide

/-- C3 (amended): for n ≥ 3 distinct players and any permutation of the
deck, assign_roles deals exactly one Mafia, one Komissar, one Doktor and
n-3 Fuqaro, and every input id appears exactly once as a key. -/
theorem C3_assign_roles_amended (player_ids : List PlayerId) (shuffled : List Role)
    (hn : 3 ≤ player_ids.length) (hnd : player_ids.Nodup)
    (hp : shuffled.Perm (base_roles player_ids.length)) :
    ∃ l, assign_roles player_ids shuffled = Except.ok l ∧
      ((l.map Prod.snd).count Role.Mafia = 1 ∧
        (l.map Prod.snd).count Role.Komissar = 1 ∧
        (l.map Prod.snd).count Role.Doktor = 1 ∧
        (l.map Prod.snd).count Role.Fuqaro = player_ids.length - 3) ∧
      l.map Prod.fst = player_ids ∧
      ∀ i ∈ player_ids, (l.map Prod.fst).count i = 1 := by
  have hlen : (base_roles player_ids.length).length = player_ids.length := by
    simp [base_roles]
    omega
  have hsl : shuffled.length = player_ids.length := by rw [hp.length_eq, hlen]
  have hfst : (player_ids.zip shuffled).map Prod.fst = player_ids :=
    List.map_fst_zip _ _ hsl.ge
  have hsnd : (player_ids.zip shuffled).map Prod.snd = shuffled :=
    List.map_snd_zip _ _ hsl.le
  refine ⟨player_ids.zip shuffled, ?_, ?_, ?_, ?_⟩
  · rw [assign_roles, if_neg (by omega)]
  · rw [hsnd, hp.count_eq, hp.count_eq, hp.count_eq, hp.count_eq]
    refine ⟨?_, ?_, ?_, ?_⟩ <;>
      simp [base_roles, List.count_cons, List.count_replicate]
  · exact hfst
  · intro i hi
    rw [hfst]
    exact List.count_eq_one_of_mem hnd hi

/-- C3 witness: four players with the unshuffled deck receive one Mafia,
one Doktor, one Komissar and one Fuqaro, each id keyed once. -/
theorem C3_witness :
    ∃ l, assign_roles [1, 2, 3, 4] (base_roles 4) = Except.ok l ∧
      ((l.map Prod.snd).count Role.Mafia = 1 ∧
        (l.map Prod.snd).count Role.Komissar = 1 ∧
        (l.map Prod.snd).count Role.Doktor = 1 ∧
        (l.map Prod.snd).count Role.Fuqaro = [1, 2, 3, 4].length - 3) ∧
      l.map Prod.fst = [1, 2, 3, 4] ∧
      ∀ i ∈ [1, 2, 3, 4], (l.map Prod.fst).count i = 1 :=
  C3_assign_roles_amended [1, 2, 3, 4] (base_roles 4) (by decide) (by decide)
    (List.Perm.refl _)

/-! ### C2: the night-action callback -/

/-- A started three-player session in Day phase; player 7 is dead. -/
def daySession : GameState :=
  { players := [(5, "A"), (6, "B"), (7, "C")]
    roles := [(5, Role.Mafia), (6, Role.Doktor), (7, Role.Komissar)]
    alive := {5, 6}
    started := true
    phase := Phase.day
    votes := []
    night_actions := ⟨none, none, none⟩ }

/-- C2 (counterexample): with the session in Day phase, a mafia submission
aimed at the dead player 7 is accepted and mutates the session, where the
claim requires a WrongPhase (and InvalidTarget) failure with the state
unchanged. -/
theorem C2_counterexample :
    daySession.phase ≠ Phase.night ∧
    7 ∉ daySession.alive ∧
    (button_handler [(1, daySession)] 5 (CallbackData.mafia 7)).2 = BhResult.acted 1 ∧
    (button_handler [(1, daySession)] 5 (CallbackData.mafia 7)).1 ≠ [(1, daySession)] := by
  decide

/-- C2 (amended): the callback fails, leaving every session unchanged,
exactly when the presser is not a living registered player of any session
(or the matched chat id is 0, a Python-truthiness artifact; Telegram chat
ids are nonzero).  Otherwise the target is stored in the pressed slot of
the first such session, in any phase and for any target — dead or self
included — and nothing but that night-action slot changes. -/
theorem C2_button_handler_amended (games : List (ChatId × GameState))
    (user_id : PlayerId) (data : CallbackData) :
    (findTargetChat games user_id = none →
        button_handler games user_id data = (games, BhResult.notInAnyGame)) ∧
    (findTargetChat games user_id = some 0 →
        button_handler games user_id data = (games, BhResult.notInAnyGame)) ∧
    (∀ cid, findTargetChat games user_id = some cid → cid ≠ 0 →
        button_handler games user_id data =
          (games.map (fun cg => if cg.1 = cid then (cg.1, applyAction cg.2 data) else cg),
            BhResult.acted cid)) ∧
    (∀ g : GameState,
        (applyAction g data).players = g.players ∧
        (applyAction g data).alive = g.alive ∧
        (applyAction g data).phase = g.phase ∧
        (applyAction g data).roles = g.roles ∧
        (applyAction g data).votes = g.votes) ∧
    (∀ (g : GameState) (t : PlayerId),
        (applyAction g (CallbackData.mafia t)).night_actions.mafia = some t ∧
        (applyAction g (CallbackData.doctor t)).night_actions.doctor = some t ∧
        (applyAction g (CallbackData.sheriff t)).night_actions.sheriff = some t) := by
  refine ⟨?_, ?_, ?_, ?_, ?_⟩
  · intro h
    simp [button_handler, h]
  · intro h
    simp [button_handler, h]
  · intro cid h h0
    simp [button_handler, h, h0]
  · intro g
    cases data <;> simp [applyAction]
  · intro g t
    exact ⟨rfl, rfl, rfl⟩

/-- C2 witness: a doctor submission from living player 5 is recorded in the
only session holding 5. -/
theorem C2_witness :
    button_handler [(1, daySession)] 5 (CallbackData.doctor 6) =
      ([(1, { daySession with night_actions := ⟨none, some 6, none⟩ })],
        BhResult.acted 1) := by
  have h := (C2_button_handler_amended [(1, daySession)] 5
    (CallbackData.doctor 6)).2.2.1 1 (by decide) (by decide)
  rw [h]
  decide

/-! ### C4: night resolution -/

/-- The announced victim never depends on the branch of the final
`check_game_end` match. -/
theorem end_night_phase_victim (g : GameState) :
    (end_night_phase g).2.victim = night_victim g.night_actions := by
  simp only [end_night_phase]
  split <;> rfl

/-- The announced investigation never depends on the branch of the final
`check_game_end` match. -/
theorem end_night_phase_investigation (g : GameState) :
    (end_night_phase g).2.investigation =
      night_investigation g.night_actions g.roles := by
  simp only [end_night_phase]
  split <;> rfl

/-- When `end_night_phase` keeps the session, the new session is the old
one with the victim discarded, phase day and votes cleared. -/
theorem end_night_phase_fst_some (g g' : GameState)
    (h : (end_night_phase g).1 = some g') :
    g' = { g with alive := apply_victim g.alive (night_victim g.night_actions),
                  phase := Phase.day, votes := [] } := by
  simp only [end_night_phase] at h
  split at h
  · simpa using h.symm
  · simp at h

/-- C4: with nonzero submitted ids (Telegram ids are nonzero), the Mafia's
target dies iff a Mafia target was submitted and it differs from the
Doktor's target; no Mafia submission kills nobody whatever the Doktor did;
a kill removes exactly the victim from alive; the Komissar's result is the
target's current role whenever a sheriff submission exists, and it is
independent of the Mafia and Doktor submissions. -/
theorem C4_night_resolution (g : GameState)
    (hm : g.night_actions.mafia ≠ some 0)
    (hs : g.night_actions.sheriff ≠ some 0) :
    (∀ t, (end_night_phase g).2.victim = some t ↔
        (g.night_actions.mafia = some t ∧ g.night_actions.doctor ≠ some t)) ∧
    (g.night_actions.mafia = none →
        (end_night_phase g).2.victim = none ∧
        ∀ g', (end_night_phase g).1 = some g' → g'.alive = g.alive) ∧
    (∀ t, (end_night_phase g).2.victim = some t →
        ∀ g', (end_night_phase g).1 = some g' → g'.alive = g.alive.erase t) ∧
    (∀ s, g.night_actions.sheriff = some s →
        (end_night_phase g).2.investigation =
          (dictGet? s g.roles).map (fun r => (s, r))) ∧
    (∀ x y, (end_night_phase
          { g with night_actions :=
              { g.night_actions with mafia := x, doctor := y } }).2.investigation =
        (end_night_phase g).2.investigation) := by
  refine ⟨?_, ?_, ?_, ?_, ?_⟩
  · intro t
    rw [end_night_phase_victim]
    unfold night_victim
    rcases hma : g.night_actions.mafia with _ | m
    · show (none : Option PlayerId) = some t ↔
        none = some t ∧ g.night_actions.doctor ≠ some t
      simp
    · show (if m ≠ 0 ∧ g.night_actions.doctor ≠ some m then some m else none) = some t ↔
        some m = some t ∧ g.night_actions.doctor ≠ some t
      have hm0 : m ≠ 0 := by
        rintro rfl
        exact hm hma
      by_cases hd : g.night_actions.doctor = some m
      · rw [if_neg (by simp [hd])]
        constructor
        · intro hcon
          simp at hcon
        · rintro ⟨hmt, hdt⟩
          obtain rfl : m = t := by injection hmt
          exact absurd hd hdt
      · rw [if_pos ⟨hm0, hd⟩]
        constructor
        · intro hmt
          obtain rfl : m = t := by injection hmt
          exact ⟨rfl, hd⟩
        · rintro ⟨hmt, _⟩
          exact hmt
  · intro h
    have hv : night_victim g.night_actions = none := by simp [night_victim, h]
    refine ⟨by rw [end_night_phase_victim]; exact hv, ?_⟩
    intro g' hg'
    rw [end_night_phase_fst_some g g' hg']
    show apply_victim g.alive (night_victim g.night_actions) = g.alive
    rw [hv]
    rfl
  · intro t ht g' hg'
    rw [end_night_phase_victim] at ht
    rw [end_night_phase_fst_some g g' hg']
    show apply_victim g.alive (night_victim g.night_actions) = g.alive.erase t
    rw [ht]
    rfl
  · intro s hsv
    rw [end_night_phase_investigation]
    have hs0 : s ≠ 0 := by
      rintro rfl
      exact hs hsv
    simp [night_investigation, hsv, hs0]
  · intro x y
    rw [end_night_phase_investigation, end_night_phase_investigation]
    rfl

/-- A night session: Mafia targets 2, Doktor protects 3, Komissar checks 1. -/
def nightSession : GameState :=
  { players := [(1, "A"), (2, "B"), (3, "C")]
    roles := [(1, Role.Mafia), (2, Role.Fuqaro), (3, Role.Doktor)]
    alive := {1, 2, 3}
    started := true
    phase := Phase.night
    votes := []
    night_actions := ⟨some 2, some 3, some 1⟩ }

/-- C4 witness: in nightSession player 2 dies (the Doktor protected 3) and
the Komissar learns that player 1 is the Mafia. -/
theorem C4_witness :
    (end_night_phase nightSession).2.victim = some 2 ∧
    (end_night_phase nightSession).2.investigation = some (1, Role.Mafia) := by
  have h := C4_night_resolution nightSession (by decide) (by decide)
  refine ⟨(h.1 2).mpr (by decide), ?_⟩
  have h4 := h.2.2.2.1 1 rfl
  rw [h4]
  decide

/-! ### C6: insufficient players -/

/-- A lobby with only two joined players. -/
def twoLobby : GameState := { freshGame with players := [(1, "A"), (2, "B")] }

/-- C6: assign_roles on fewer than three ids fails with the
insufficient-players error, and /begin on a session with fewer than three
joined players fails the same way, leaving the registry unchanged. -/
theorem C6_insufficient_players (ids : List PlayerId) (sh sh' : List Role)
    (games : List (ChatId × GameState)) (cid : ChatId) (g : GameState)
    (hids : ids.length < 3)
    (hg : dictGet? cid games = some g)
    (hp : g.players.length < 3) :
    assign_roles ids sh = Except.error GameError.insufficientPlayers ∧
    begin_game g sh' = Except.error GameError.insufficientPlayers ∧
    begin_cmd games cid sh' = games := by
  have h2 : begin_game g sh' = Except.error GameError.insufficientPlayers := by
    simp only [begin_game]
    rw [if_pos (by simpa using hp)]
  refine ⟨?_, h2, ?_⟩
  · rw [assign_roles, if_pos hids]
  · simp [begin_cmd, hg, h2]

/-- C6 witness: two players are not enough, and /begin leaves the registry
as it was. -/
theorem C6_witness :
    assign_roles [1, 2] [] = Except.error GameError.insufficientPlayers ∧
    begin_game twoLobby [] = Except.error GameError.insufficientPlayers ∧
    begin_cmd [(-100, twoLobby)] (-100) [] = [(-100, twoLobby)] :=
  C6_insufficient_players [1, 2] [] [] [(-100, twoLobby)] (-100) twoLobby
    (by decide) (by decide) (by decide)

/-! ### Vote lemmas -/

/-- Discarding an optional victim never grows the alive set. -/
theorem apply_victim_subset (a : Finset PlayerId) (v : Option PlayerId) :
    apply_victim a v ⊆ a := by
  cases v with
  | none => exact Finset.Subset.refl a
  | some x => exact Finset.erase_subset x a

/-- An accepted vote that keeps the session never grows the alive set and
never touches the player dict. -/
theorem vote_ok_some (g : GameState) (u : PlayerId) (args : List String)
    (g' : GameState) (o : VoteOutcome)
    (h : vote g u args = Except.ok (some g', o)) :
    g'.alive ⊆ g.alive ∧ g'.players = g.players := by
  simp only [vote] at h
  split at h
  · exact absurd h (by simp)
  · split at h
    · exact absurd h (by simp)
    · split at h
      · exact absurd h (by simp)
      · split at h
        · exact absurd h (by simp)
        · split at h
          · split at h
            · simp only [Except.ok.injEq, Prod.mk.injEq, Option.some.injEq] at h
              obtain ⟨rfl, -⟩ := h
              exact ⟨Finset.erase_subset _ _, rfl⟩
            · split at h
              · simp only [Except.ok.injEq, Prod.mk.injEq, Option.some.injEq] at h
                obtain ⟨rfl, -⟩ := h
                exact ⟨Finset.Subset.refl _, rfl⟩
              · exact absurd h (by simp)
          · simp only [Except.ok.injEq, Prod.mk.injEq, Option.some.injEq] at h
            obtain ⟨rfl, -⟩ := h
            exact ⟨Finset.Subset.refl _, rfl⟩

/-! ### C5: automatic tally at quorum -/

/-- Session before a decisive third vote: three living players, votes 1→2
and 2→2 already recorded. -/
def quorumSession : GameState :=
  { players := [(1, "A"), (2, "B"), (3, "C")]
    roles := [(1, Role.Mafia), (2, Role.Doktor), (3, Role.Komissar)]
    alive := {1, 2, 3}
    started := true
    phase := Phase.day
    votes := [(1, 2), (2, 2)]
    night_actions := ⟨none, none, none⟩ }

/-- C5 (code bug, evaluated at the failing input): player 3's vote for "B"
reaches quorum with the unique maximum candidate 2.  The code discards 2
from alive and then dies in `update.message.reply_chat_action(chat_id=chat_id)`
— `Message.reply_chat_action` requires a positional `action` and accepts no
`chat_id`, so the call raises TypeError — hence check_game_end never runs
and the phase stays day, although on the resulting alive set the evaluator
would report that the Mafia faction won and the session should be deleted. -/
theorem C5_vote_quorum_code_bug :
    vote quorumSession 3 ["B"] =
      Except.ok
        (some { quorumSession with votes := [(1, 2), (2, 2), (3, 2)], alive := ({1, 3} : Finset PlayerId) },
          ⟨true, some 2, false, true⟩) ∧
    ({ quorumSession with votes := [(1, 2), (2, 2), (3, 2)], alive := ({1, 3} : Finset PlayerId) } : GameState).phase = Phase.day ∧
    check_game_end quorumSession.roles ({1, 3} : Finset PlayerId) = GameEndResult.evilWins := by
  decide

/-! ### C7: the alive set shrinks and stays inside the player dict -/

/-- C7: begin_game initialises alive to exactly the player keys; a kept
night resolution and a kept accepted vote only ever shrink alive and leave
the player dict alone, so alive stays inside the player keys. -/
theorem C7_alive_invariant
    (gA gB gC : GameState) (sh : List Role) (gA' gB' gC' : GameState)
    (resB : NightResult) (voter : PlayerId) (args : List String) (oc : VoteOutcome)
    (hA : begin_game gA sh = Except.ok gA')
    (hB : end_night_phase gB = (some gB', resB))
    (hC : vote gC voter args = Except.ok (some gC', oc)) :
    (gA'.alive = (gA.players.map Prod.fst).toFinset ∧ gA'.players = gA.players ∧
      gA'.alive ⊆ (gA'.players.map Prod.fst).toFinset) ∧
    (gB'.alive ⊆ gB.alive ∧ gB'.players = gB.players ∧
      (gB.alive ⊆ (gB.players.map Prod.fst).toFinset →
        gB'.alive ⊆ (gB'.players.map Prod.fst).toFinset)) ∧
    (gC'.alive ⊆ gC.alive ∧ gC'.players = gC.players ∧
      (gC.alive ⊆ (gC.players.map Prod.fst).toFinset →
        gC'.alive ⊆ (gC'.players.map Prod.fst).toFinset)) := by
  refine ⟨?_, ?_, ?_⟩
  · simp only [begin_game, assign_roles] at hA
    split at hA
    · exact absurd hA (by simp)
    · dsimp only at hA
      simp only [Except.ok.injEq] at hA
      obtain rfl := hA
      exact ⟨rfl, rfl, Finset.Subset.refl _⟩
  · have hB1 : (end_night_phase gB).1 = some gB' := by rw [hB]
    have hEq := end_night_phase_fst_some gB gB' hB1
    subst hEq
    refine ⟨apply_victim_subset _ _, rfl, ?_⟩
    intro hsub
    exact fun x hx => hsub (apply_victim_subset _ _ hx)
  · obtain ⟨hsub, hpl⟩ := vote_ok_some gC voter args gC' oc hC
    refine ⟨hsub, hpl, ?_⟩
    intro hin
    rw [hpl]
    exact fun x hx => hin (hsub hx)

/-- A three-player lobby. -/
def lobby3 : GameState := { freshGame with players := [(1, "A"), (2, "B"), (3, "C")] }

/-- The session right after /begin with the unshuffled deck. -/
def started3 : GameState :=
  { lobby3 with roles := [(1, Role.Mafia), (2, Role.Doktor), (3, Role.Komissar)],
                alive := {1, 2, 3}, started := true, phase := Phase.night }

/-- The same session brought to Day phase. -/
def started3Day : GameState := { started3 with phase := Phase.day }

/-- C7 witness: a concrete begin, an actionless night resolution and a
first day vote, all preserving the invariant. -/
theorem C7_witness :
    (started3.alive = (lobby3.players.map Prod.fst).toFinset ∧
      started3.players = lobby3.players ∧
      started3.alive ⊆ (started3.players.map Prod.fst).toFinset) ∧
    (started3Day.alive ⊆ started3.alive ∧ started3Day.players = started3.players ∧
      (started3.alive ⊆ (started3.players.map Prod.fst).toFinset →
        started3Day.alive ⊆ (started3Day.players.map Prod.fst).toFinset)) ∧
    (({ started3Day with votes := [(1, 2)] } : GameState).alive ⊆ started3Day.alive ∧
      ({ started3Day with votes := [(1, 2)] } : GameState).players = started3Day.players ∧
      (started3Day.alive ⊆ (started3Day.players.map Prod.fst).toFinset →
        ({ started3Day with votes := [(1, 2)] } : GameState).alive ⊆
          (({ started3Day with votes := [(1, 2)] } : GameState).players.map Prod.fst).toFinset)) :=
  C7_alive_invariant lobby3 started3 started3Day (base_roles 3)
    started3 started3Day { started3Day with votes := [(1, 2)] }
    ⟨none, none⟩ 1 ["B"] ⟨false, none, false, false⟩
    (by decide) (by decide) (by decide)

/-- An accepted vote below quorum only records the resolved target under
the voter's key. -/
theorem vote_records (g : GameState) (u t : PlayerId) (args : List String)
    (h1 : g.phase = Phase.day) (h2 : u ∈ g.alive) (ha : args ≠ [])
    (hr : resolve_target g.players g.alive (py_strip (py_join args)) = some t)
    (hq : (dictInsert u t g.votes).length ≠ g.alive.card) :
    vote g u args = Except.ok (some { g with votes := dictInsert u t g.votes },
      ⟨false, none, false, false⟩) := by
  simp only [vote, h1, h2, ha, hr, hq]
  simp

/-! ### C8: last write wins -/

/-- C8: a living voter in Day phase who votes twice for two different valid
targets while quorum is not reached ends with exactly one recorded vote —
the latest one. -/
theorem C8_last_write_wins (g : GameState) (voter t1 t2 : PlayerId)
    (args1 args2 : List String)
    (h1 : g.phase = Phase.day) (h2 : voter ∈ g.alive)
    (ha1 : args1 ≠ []) (ha2 : args2 ≠ [])
    (hr1 : resolve_target g.players g.alive (py_strip (py_join args1)) = some t1)
    (hr2 : resolve_target g.players g.alive (py_strip (py_join args2)) = some t2)
    (_ht : t1 ≠ t2)
    (hq : (dictInsert voter t1 g.votes).length ≠ g.alive.card)
    (hnd : (g.votes.map Prod.fst).Nodup) :
    vote g voter args1 =
      Except.ok (some { g with votes := dictInsert voter t1 g.votes },
        ⟨false, none, false, false⟩) ∧
    vote { g with votes := dictInsert voter t1 g.votes } voter args2 =
      Except.ok (some { g with votes := dictInsert voter t2 (dictInsert voter t1 g.votes) },
        ⟨false, none, false, false⟩) ∧
    dictGet? voter (dictInsert voter t2 (dictInsert voter t1 g.votes)) = some t2 ∧
    ((dictInsert voter t2 (dictInsert voter t1 g.votes)).map Prod.fst).count voter = 1 := by
  have hmem : voter ∈ (dictInsert voter t1 g.votes).map Prod.fst :=
    mem_keys_dictInsert voter t1 g.votes
  have hlen2 : (dictInsert voter t2 (dictInsert voter t1 g.votes)).length =
      (dictInsert voter t1 g.votes).length :=
    length_dictInsert_of_mem t2 hmem
  have hv2 := vote_records { g with votes := dictInsert voter t1 g.votes } voter t2 args2
    h1 h2 ha2 hr2 (by rw [hlen2]; exact hq)
  exact ⟨vote_records g voter t1 args1 h1 h2 ha1 hr1 hq, hv2,
    dictGet?_dictInsert_self voter t2 _,
    count_keys_dictInsert voter t2 (keys_dictInsert_nodup voter t1 hnd)⟩

/-- C8 witness: player 1 votes for B and then for C; only the C vote
remains. -/
theorem C8_witness :
    vote started3Day 1 ["B"] =
      Except.ok (some { started3Day with votes := dictInsert 1 2 started3Day.votes },
        ⟨false, none, false, false⟩) ∧
    vote { started3Day with votes := dictInsert 1 2 started3Day.votes } 1 ["C"] =
      Except.ok (some { started3Day with votes := dictInsert 1 3 (dictInsert 1 2 started3Day.votes) },
        ⟨false, none, false, false⟩) ∧
    dictGet? 1 (dictInsert 1 3 (dictInsert 1 2 started3Day.votes)) = some 3 ∧
    ((dictInsert 1 3 (dictInsert 1 2 started3Day.votes)).map Prod.fst).count 1 = 1 :=
  C8_last_write_wins started3Day 1 2 3 ["B"] ["C"] rfl (by decide) (by decide)
    (by decide) (by decide) (by decide) (by decide) (by decide) (by decide)

/-! ### C9: case-insensitive, earliest-join name resolution -/

/-- C9: an accepted below-quorum Day vote by a living voter resolves the
written name case-insensitively among the living players and records the
vote for the matching player earliest in join (insertion) order: the player
dict splits at the resolved player and every earlier entry fails the match
predicate. -/
theorem C9_name_resolution (g : GameState) (voter uid : PlayerId) (nm : String)
    (args : List String)
    (h1 : g.phase = Phase.day) (h2 : voter ∈ g.alive) (ha : args ≠ [])
    (hfind : g.players.find? (fun pn =>
        decide (py_lower pn.2 = py_lower (py_strip (py_join args)) ∧
          pn.1 ∈ g.alive)) = some (uid, nm))
    (h0 : uid ≠ 0)
    (hq : (dictInsert voter uid g.votes).length ≠ g.alive.card) :
    vote g voter args =
      Except.ok (some { g with votes := dictInsert voter uid g.votes },
        ⟨false, none, false, false⟩) ∧
    ∃ l₁ l₂, g.players = l₁ ++ (uid, nm) :: l₂ ∧
      py_lower nm = py_lower (py_strip (py_join args)) ∧ uid ∈ g.alive ∧
      ∀ p ∈ l₁, ¬(py_lower p.2 = py_lower (py_strip (py_join args)) ∧ p.1 ∈ g.alive) := by
  have hr : resolve_target g.players g.alive (py_strip (py_join args)) = some uid := by
    unfold resolve_target
    rw [hfind]
    exact if_neg h0
  refine ⟨vote_records g voter uid args h1 h2 ha hr hq, ?_⟩
  obtain ⟨l₁, l₂, hsplit, hpa, hneg⟩ := find?_eq_some_split _ _ _ hfind
  have hprop : py_lower nm = py_lower (py_strip (py_join args)) ∧ uid ∈ g.alive :=
    of_decide_eq_true hpa
  refine ⟨l₁, l₂, hsplit, hprop.1, hprop.2, ?_⟩
  intro p hp hcontra
  have hfalse := hneg p hp
  rw [decide_eq_false_iff_not] at hfalse
  exact hfalse hcontra

/-- Two living players named "bob" and "Bob" besides "A"; everyone alive. -/
def dupNames : GameState :=
  { players := [(1, "A"), (2, "bob"), (3, "Bob")]
    roles := [(1, Role.Mafia), (2, Role.Doktor), (3, Role.Komissar)]
    alive := {1, 2, 3}
    started := true
    phase := Phase.day
    votes := []
    night_actions := ⟨none, none, none⟩ }

/-- C9 witness: a vote for "BOB" lands on player 2, the earlier of the two
living case-insensitive matches. -/
theorem C9_witness :
    vote dupNames 1 ["BOB"] =
      Except.ok (some { dupNames with votes := dictInsert 1 2 dupNames.votes },
        ⟨false, none, false, false⟩) ∧
    ∃ l₁ l₂, dupNames.players = l₁ ++ ((2 : PlayerId), "bob") :: l₂ ∧
      py_lower "bob" = py_lower (py_strip (py_join ["BOB"])) ∧
      (2 : PlayerId) ∈ dupNames.alive ∧
      ∀ p ∈ l₁, ¬(py_lower p.2 = py_lower (py_strip (py_join ["BOB"])) ∧
        p.1 ∈ dupNames.alive) :=
  C9_name_resolution dupNames 1 2 "bob" ["BOB"] rfl (by decide) (by decide)
    (by decide) (by decide) (by decide)

end Mafia
